import Mathlib

/-!
Shallow embedding of the `ai_service_chatbot` ingestion-and-retrieval pipeline
(`app/services/parser.py`, `chunker.py`, `indexer.py`, `rag_engine.py`,
`app/api/ingest.py`, repository modules), together with theorems settling the
specification claims about it.

Modelling conventions:
- Python dicts with optional keys become structures with `Option` fields
  (`none` = key absent).
- External collaborators (the PDF/OCR libraries, the text splitter, the
  embedding and chat services, FAISS search output) are oracle parameters:
  their outputs are inputs of the embedded functions, exactly at the call
  boundary the Python code uses.
- MD5 (`hashlib.md5(...).hexdigest()`) is implemented in full over byte lists;
  hex digests are represented as lists of ASCII code points (`Digest`), an
  injective encoding of the Python hex string.
- Strings that only need to exist (log text, diagnostic notes) keep their
  source wording where convenient; interpolated ids inside notes are elided,
  which no claim depends on.
- Python's stable `sort` is modelled by a structural stable insertion sort
  (`stableSortBy`), extensionally the same as any stable sort by key.
-/

/- ## Python value helpers -/

/-- Truthiness of an optional string per Python: `None` and `""` are falsy. -/
def pyTruthy : Option String → Bool
  | none => false
  | some s => !(s == "")

/-- Python `a or b` for optional strings. -/
def pyOrStr (a b : Option String) : Option String := if pyTruthy a then a else b

/-- Stable insertion of `a` into `l`: `a` goes before the first element it is
strictly below, hence after all earlier elements with an equal key. -/
def insertStable {α : Type} (lt : α → α → Bool) (a : α) : List α → List α
  | [] => [a]
  | b :: bs => if lt a b then a :: b :: bs else b :: insertStable lt a bs

/-- Stable ascending sort, modelling Python's stable `list.sort(key=...)`. -/
def stableSortBy {α : Type} (lt : α → α → Bool) (l : List α) : List α :=
  l.foldl (fun acc a => insertStable lt a acc) []

/- ## MD5 (`hashlib.md5`), over byte lists -/

def w32 : Nat := 4294967296

def rotl32 (x n : Nat) : Nat := ((x <<< n) ||| (x >>> (32 - n))) % w32

def not32 (x : Nat) : Nat := Nat.xor x 4294967295

def md5K : List Nat :=
  [0xd76aa478, 0xe8c7b756, 0x242070db, 0xc1bdceee,
   0xf57c0faf, 0x4787c62a, 0xa8304613, 0xfd469501,
   0x698098d8, 0x8b44f7af, 0xffff5bb1, 0x895cd7be,
   0x6b901122, 0xfd987193, 0xa679438e, 0x49b40821,
   0xf61e2562, 0xc040b340, 0x265e5a51, 0xe9b6c7aa,
   0xd62f105d, 0x02441453, 0xd8a1e681, 0xe7d3fbc8,
   0x21e1cde6, 0xc33707d6, 0xf4d50d87, 0x455a14ed,
   0xa9e3e905, 0xfcefa3f8, 0x676f02d9, 0x8d2a4c8a,
   0xfffa3942, 0x8771f681, 0x6d9d6122, 0xfde5380c,
   0xa4beea44, 0x4bdecfa9, 0xf6bb4b60, 0xbebfbc70,
   0x289b7ec6, 0xeaa127fa, 0xd4ef3085, 0x04881d05,
   0xd9d4d039, 0xe6db99e5, 0x1fa27cf8, 0xc4ac5665,
   0xf4292244, 0x432aff97, 0xab9423a7, 0xfc93a039,
   0x655b59c3, 0x8f0ccc92, 0xffeff47d, 0x85845dd1,
   0x6fa87e4f, 0xfe2ce6e0, 0xa3014314, 0x4e0811a1,
   0xf7537e82, 0xbd3af235, 0x2ad7d2bb, 0xeb86d391]

def md5S : List Nat :=
  [7, 12, 17, 22, 7, 12, 17, 22, 7, 12, 17, 22, 7, 12, 17, 22,
   5, 9, 14, 20, 5, 9, 14, 20, 5, 9, 14, 20, 5, 9, 14, 20,
   4, 11, 16, 23, 4, 11, 16, 23, 4, 11, 16, 23, 4, 11, 16, 23,
   6, 10, 15, 21, 6, 10, 15, 21, 6, 10, 15, 21, 6, 10, 15, 21]

/-- MD5 padding: `0x80`, zeros to 56 mod 64, then the 8-byte little-endian
bit length. -/
def md5Pad (msg : List Nat) : List Nat :=
  let bitLen := (8 * msg.length) % (2 ^ 64)
  let padZeros := (55 + 64 - (msg.length % 64)) % 64
  msg ++ [0x80] ++ List.replicate padZeros 0 ++
    (List.range 8).map (fun i => (bitLen >>> (8 * i)) % 256)

/-- The 16 little-endian 32-bit words of one 64-byte block. -/
def leWords (block : List Nat) : List Nat :=
  (List.range 16).map fun j =>
    match block.drop (4 * j) with
    | b0 :: b1 :: b2 :: b3 :: _ => b0 + (b1 <<< 8) + (b2 <<< 16) + (b3 <<< 24)
    | _ => 0

def md5Round (m : List Nat) (st : Nat × Nat × Nat × Nat) (i : Nat) : Nat × Nat × Nat × Nat :=
  let (a, b, c, d) := st
  let (f, g) :=
    if i < 16 then ((Nat.lor (Nat.land b c) (Nat.land (not32 b) d)), i)
    else if i < 32 then ((Nat.lor (Nat.land d b) (Nat.land (not32 d) c)), (5 * i + 1) % 16)
    else if i < 48 then ((Nat.xor (Nat.xor b c) d), (3 * i + 5) % 16)
    else ((Nat.xor c (Nat.lor b (not32 d))), (7 * i) % 16)
  let f := (f + a + md5K.getD i 0 + m.getD g 0) % w32
  (d, (b + rotl32 f (md5S.getD i 0)) % w32, b, c)

def md5Block (st : Nat × Nat × Nat × Nat) (block : List Nat) : Nat × Nat × Nat × Nat :=
  let m := leWords block
  let (a, b, c, d) := (List.range 64).foldl (md5Round m) st
  let (a0, b0, c0, d0) := st
  ((a0 + a) % w32, (b0 + b) % w32, (c0 + c) % w32, (d0 + d) % w32)

def hexDigitCp (n : Nat) : Nat := if n < 10 then 48 + n else 87 + n

def byteHexCps (b : Nat) : List Nat := [hexDigitCp (b / 16), hexDigitCp (b % 16)]

def word32LEBytes (x : Nat) : List Nat :=
  [x % 256, (x >>> 8) % 256, (x >>> 16) % 256, (x >>> 24) % 256]

/-- MD5 hex digest of a byte message, as the list of ASCII code points of the
lowercase hex string returned by Python's `hexdigest()`. -/
def md5HexCps (msg : List Nat) : List Nat :=
  let padded := md5Pad msg
  let (a, b, c, d) :=
    (List.range (padded.length / 64)).foldl
      (fun st j => md5Block st ((padded.drop (64 * j)).take 64))
      (0x67452301, 0xefcdab89, 0x98badcfe, 0x10325476)
  ((word32LEBytes a ++ word32LEBytes b ++ word32LEBytes c ++ word32LEBytes d).map byteHexCps).flatten

/-- UTF-8 encoding of a Unicode code point. -/
def utf8Cp (n : Nat) : List Nat :=
  if n < 0x80 then [n]
  else if n < 0x800 then [0xC0 + (n >>> 6), 0x80 + (n % 64)]
  else if n < 0x10000 then [0xE0 + (n >>> 12), 0x80 + ((n >>> 6) % 64), 0x80 + (n % 64)]
  else [0xF0 + (n >>> 18), 0x80 + ((n >>> 12) % 64), 0x80 + ((n >>> 6) % 64), 0x80 + (n % 64)]

def utf8Bytes (cps : List Nat) : List Nat := (cps.map utf8Cp).flatten

/-- Code points of a Lean string. -/
def strCps (s : String) : List Nat := s.data.map Char.toNat

/- ## Content-addressed ids (`indexer._compute_book_id` and friends) -/

/-- A Python string id value (book/chapter/lesson id), as code points. -/
abbrev Digest := List Nat

/-- Python `str.strip()` whitespace test, on code points (ASCII whitespace;
the Vietnamese book names in play contain no exotic Unicode whitespace). -/
def isWsCp (n : Nat) : Bool :=
  n == 32 || n == 9 || n == 10 || n == 11 || n == 12 || n == 13

/-- Python `str.lower()` on a code point (ASCII case mapping; coincides with
Python on the ASCII range). -/
def lowerCp (n : Nat) : Nat := if 65 ≤ n ∧ n ≤ 90 then n + 32 else n

/-- `s.strip().lower()` on code points. -/
def pyNormCps (s : String) : List Nat :=
  (((((strCps s).dropWhile isWsCp).reverse).dropWhile isWsCp).reverse).map lowerCp

/-- Decimal ASCII digits of `n`, as Python's `str(int)` produces (fuel-based
so that the kernel can evaluate it). -/
def natDecAux : Nat → Nat → List Nat
  | 0, _ => []
  | fuel + 1, n => if n < 10 then [48 + n] else natDecAux fuel (n / 10) ++ [48 + n % 10]

def natDecCps (n : Nat) : List Nat := natDecAux (n + 1) n

/-- `indexer._compute_book_id`: md5 of `f"{book_name.strip().lower()}::{grade}"`. -/
def compute_book_id (book_name : String) (grade : Nat) : Digest :=
  md5HexCps (utf8Bytes (pyNormCps book_name ++ strCps "::" ++ natDecCps grade))

/-- `indexer._compute_chapter_id`: md5 of `f"{book_id}::{chapter_title.strip().lower()}"`. -/
def compute_chapter_id (book_id : Digest) (chapter_title : String) : Digest :=
  md5HexCps (utf8Bytes (book_id ++ strCps "::" ++ pyNormCps chapter_title))

/-- `indexer._compute_lesson_id`: md5 of `f"{chapter_id}::{lesson_title.strip().lower()}"`. -/
def compute_lesson_id (chapter_id : Digest) (lesson_title : String) : Digest :=
  md5HexCps (utf8Bytes (chapter_id ++ strCps "::" ++ pyNormCps lesson_title))

/- ## PDF extraction (`parser.parse_pdf_bytes`) -/

/-- One per-page record produced by the extractor (`blocks` carries raw PDF
library data and is omitted; no claim touches it). Empty string = no
chapter/lesson carried, as in the Python code. -/
structure PageRec where
  page_num : Nat
  text : String
  chapter : String
  lesson : String
deriving DecidableEq, Repr

/-- Carry-forward update: `if detected: current = detected`. -/
def carryHeading (cur det : String) : String := if det == "" then cur else det

/-- Text-layer path of `parse_pdf_bytes`: one input triple per page, the
`(text, chapter, lesson)` output of `_extract_text_with_structure` (an oracle
over the PDF library). `i` is the 0-based page counter. -/
def parseTextPages : Nat → String → String → List (String × String × String) → List PageRec
  | _, _, _, [] => []
  | i, curCh, curLe, (text, detCh, detLe) :: rest =>
    let ch := carryHeading curCh detCh
    let le := carryHeading curLe detLe
    { page_num := i + 1, text := text, chapter := ch, lesson := le } ::
      parseTextPages (i + 1) ch le rest

/-- Outcome of OCRing one rasterized page in the OCR path:
`ok txt` = pytesseract succeeded; `osErr fb` = OSError (truncated image) with
`fb` the result of the direct-text fallback (`none` when that raised too);
`otherErr` = any other exception during OCR. -/
inductive OcrPage where
  | ok (txt : String)
  | osErr (fallback : Option String)
  | otherErr
deriving DecidableEq, Repr

/-- OCR path of `parse_pdf_bytes`. `detect` is `_detect_chapter_info`
(an oracle over the regex heuristics and optional LLM refinement), applied to
the first 2000 characters as in the source. -/
def parseOcrPages (detect : String → String × String) :
    Nat → String → String → List OcrPage → List PageRec
  | _, _, _, [] => []
  | i, curCh, curLe, pg :: rest =>
    match pg with
    | .ok txt =>
      let (detCh, detLe) := detect (txt.take 2000)
      let ch := carryHeading curCh detCh
      let le := carryHeading curLe detLe
      { page_num := i + 1, text := txt, chapter := ch, lesson := le } ::
        parseOcrPages detect (i + 1) ch le rest
    | .osErr (some txt) =>
      let (detCh, detLe) := detect (txt.take 2000)
      let ch := carryHeading curCh detCh
      let le := carryHeading curLe detLe
      { page_num := i + 1, text := txt, chapter := ch, lesson := le } ::
        parseOcrPages detect (i + 1) ch le rest
    | .osErr none =>
      { page_num := i + 1, text := "", chapter := curCh, lesson := curLe } ::
        parseOcrPages detect (i + 1) curCh curLe rest
    | .otherErr =>
      { page_num := i + 1, text := "", chapter := curCh, lesson := curLe } ::
        parseOcrPages detect (i + 1) curCh curLe rest

/-- `parser.parse_pdf_bytes`. `shouldText` is
`prefer_text and _has_text_layer(doc) and not FORCE_OCR`; the two input lists
are the page-wise oracle outcomes of whichever path runs. The summary logging
at the end divides by `len(pages)`, so an empty document raises
`ZeroDivisionError`, modelled as the error case. -/
def parse_pdf_bytes (detect : String → String × String) (shouldText : Bool)
    (textInputs : List (String × String × String)) (ocrInputs : List OcrPage) :
    Except String (List PageRec) :=
  let pages := if shouldText then parseTextPages 0 "" "" textInputs
               else parseOcrPages detect 0 "" "" ocrInputs
  if pages.length = 0 then .error "ZeroDivisionError" else .ok pages

/-- The page text that the OCR path records for each page outcome: OCR output,
else direct-text fallback, else the empty placeholder. -/
def ocrPageText : OcrPage → String
  | .ok txt => txt
  | .osErr (some txt) => txt
  | .osErr none => ""
  | .otherErr => ""

/- ## Data model (Mongo documents, modelled as structures with optional keys) -/

/-- A chunk document (`chunker.chunk_pages` output, enriched during ingestion
and stored by `ChunkRepository.insert_chunks`). `chunk_id` keeps the ordinal
that the source formats as `f"chunk_{n:06d}"`. `none` = key absent. -/
structure Chunk where
  chunk_id : Nat := 0
  book : Option String := none
  grade : Option Nat := none
  page : Option Nat := none
  text : String := ""
  chapter : Option String := none
  lesson : Option String := none
  chapter_id : Option Digest := none
  lesson_id : Option Digest := none
  book_id : Option Digest := none
  embedding_index : Option Nat := none
deriving DecidableEq, Repr

/-- A book document (`BookRepository.upsert_book`; the `structure` blob and
timestamps are omitted, no claim touches them). -/
structure BookDoc where
  book_id : Digest
  book_name : String
  grade : Nat
deriving DecidableEq, Repr

/-- A chapter document (`ChapterRepository.upsert_chapter`). -/
structure ChapterDoc where
  chapter_id : Digest
  book_id : Digest
  title : String
  order : Nat
deriving DecidableEq, Repr

/-- A lesson document (`LessonRepository.upsert_lesson`). -/
structure LessonDoc where
  lesson_id : Digest
  chapter_id : Digest
  book_id : Digest
  title : String
  page : Option Nat
  order : Nat
deriving DecidableEq, Repr

/-- The MongoDB store: the four collections used by the pipeline. -/
structure Db where
  books : List BookDoc
  chapters : List ChapterDoc
  lessons : List LessonDoc
  chunks : List Chunk
deriving DecidableEq, Repr

/-- `find_one({"book_id": id})`. -/
def getBookById (books : List BookDoc) (id : Digest) : Option BookDoc :=
  books.find? (fun b => b.book_id == id)

/-- `find_one({"chapter_id": id})`. -/
def getChapterById (chapters : List ChapterDoc) (id : Digest) : Option ChapterDoc :=
  chapters.find? (fun c => c.chapter_id == id)

/-- `find_one({"lesson_id": id})`. -/
def getLessonById (lessons : List LessonDoc) (id : Digest) : Option LessonDoc :=
  lessons.find? (fun l => l.lesson_id == id)

/-- Replace the first document matching the key (Mongo `update_one`). -/
def replaceFirstBook : List BookDoc → BookDoc → List BookDoc
  | [], _ => []
  | b :: bs, doc => if b.book_id == doc.book_id then doc :: bs else b :: replaceFirstBook bs doc

/-- `BookRepository.upsert_book`: update the existing document for the id, or
insert a new one. -/
def upsertBook (books : List BookDoc) (doc : BookDoc) : List BookDoc :=
  if books.any (fun b => b.book_id == doc.book_id) then replaceFirstBook books doc
  else books ++ [doc]

/- ## Chunking (`chunker.chunk_pages`) -/

/-- `chunker.chunk_pages`: split each page's text with the external
`RecursiveCharacterTextSplitter` (oracle `split`); every chunk gets the
uniform `book`/`grade`, its page number, and a running 1-based ordinal.
No `chapter`/`lesson` key is written here. -/
def chunk_pages (split : String → List String) (pages : List PageRec)
    (book_name : String) (grade : Nat) : List Chunk :=
  pages.foldl (fun acc p =>
    acc ++ (split p.text).enum.map (fun (j, t) =>
      { chunk_id := acc.length + j + 1
        book := some book_name
        grade := some grade
        page := some p.page_num
        text := t : Chunk })) []

/- ## TOC page assignments (`indexer._build_page_assignments`) -/

/-- One value of the `structured` dict: chapter title ↦ lesson titles and the
`lesson_pages` title↦page sub-dict (its values are the integer pages that
survived the truthiness filter at construction). -/
structure ChapterInfo where
  lessons : List String
  lesson_pages : List (String × Nat)
deriving DecidableEq, Repr

/-- The `page_map` being built: page number ↦ `{"chapter": ch, "lesson": le}`. -/
abbrev PageMap := Nat → Option (String × Option String)

/-- `pairs`: `(page, title)` pairs of one chapter, sorted stably by page. -/
def lessonPairs (info : ChapterInfo) : List (Nat × String) :=
  stableSortBy (fun a b => decide (a.1 < b.1))
    (info.lesson_pages.map (fun x => (x.2, x.1)))

/-- `chapter_order`: `(first lesson page, chapter)` for chapters that have at
least one paged lesson, sorted stably by page. -/
def chapterOrder (structured : List (String × ChapterInfo)) : List (Nat × String) :=
  stableSortBy (fun a b => decide (a.1 < b.1))
    (structured.filterMap (fun x => ((lessonPairs x.2).head?).map (fun p => (p.1, x.1))))

/-- `chapter_ranges`: each chapter runs from its first lesson's page to just
before the next chapter's first page (`none` = open-ended). -/
def chapterRanges (structured : List (String × ChapterInfo)) : List (Nat × Option Nat × String) :=
  let co := chapterOrder structured
  co.enum.map (fun (idx, pr) => (pr.1, (co[idx + 1]?).map (fun nxt => nxt.1 - 1), pr.2))

/-- `lesson_ranges`: each lesson runs from its page to just before the next
lesson in the same chapter, the last one ending at its chapter's end. -/
def lessonRangesOf (structured : List (String × ChapterInfo)) :
    List (Nat × Option Nat × String × String) :=
  structured.flatMap (fun x =>
    let pairs := lessonPairs x.2
    pairs.enum.map (fun (i, pr) =>
      let stop : Option Nat :=
        match pairs[i + 1]? with
        | some nxt => some (nxt.1 - 1)
        | none =>
          match (chapterRanges structured).find? (fun r => r.2.2 == x.1) with
          | some r => r.2.1
          | none => none
      (pr.1, stop, x.1, pr.2)))

/-- Write `v` at every page of `range(start, last + 1)`, overwriting. -/
def writeRange (m : PageMap) (start last : Nat) (v : String × Option String) : PageMap :=
  fun p => if start ≤ p ∧ p ≤ last then some v else m p

/-- Write `v` at every page of the range not already present
(`if p not in page_map`). -/
def writeRangeIfAbsent (m : PageMap) (start last : Nat) (v : String × Option String) : PageMap :=
  fun p =>
    match m p with
    | some x => some x
    | none => if start ≤ p ∧ p ≤ last then some v else none

/-- First pass: cover lesson ranges (`last = start if end is None else end`). -/
def lessonPass (structured : List (String × ChapterInfo)) : PageMap :=
  (lessonRangesOf structured).foldl
    (fun m r => writeRange m r.1 (r.2.1.getD r.1) (r.2.2.1, some r.2.2.2))
    (fun _ => none)

/-- Second pass: chapter-range fallback on pages not already covered. -/
def chapterPass (structured : List (String × ChapterInfo)) (m : PageMap) : PageMap :=
  (chapterRanges structured).foldl
    (fun m r => writeRangeIfAbsent m r.1 (r.2.1.getD r.1) (r.2.2, none)) m

/-- `indexer._build_page_assignments`. -/
def build_page_assignments (structured : List (String × ChapterInfo)) : PageMap :=
  chapterPass structured (lessonPass structured)

/- ## Ingestion orchestrator (`indexer.ingest_pdf`) -/

/-- Dict lookup in a `title ↦ id` map. -/
def lookupStr (m : List (String × Digest)) (k : String) : Option Digest :=
  (m.find? (fun x => x.1 == k)).map (·.2)

/-- The `max embedding_index` probe (`indexer.py` lines 260-269): the largest
`embedding_index` (`.get` default 0) over the chunks currently in the store,
`none` when the collection is empty (the cursor indexing then raises
`IndexError`, caught to leave `max_index = 0`). -/
def maxEmbIdx (chunks : List Chunk) : Option Nat :=
  (chunks.map (fun c => c.embedding_index.getD 0)).max?

/-- The chunk-preparation loop (`indexer.py` lines 305-323): override
`chapter`/`lesson` from the TOC page assignment for the chunk's page, attach
`chapter_id`/`lesson_id` from the title↦id maps, and assign
`embedding_index = max_index + i`. (The `book_structure` chunk-count
bookkeeping of lines 325-336 only feeds the metadata blob and is omitted.) -/
def tagChunks (pa : PageMap) (chMap leMap : List (String × Digest))
    (maxIndex : Nat) (chunks : List Chunk) : List Chunk :=
  chunks.enum.map (fun (i, c) =>
    let c :=
      match c.page with
      | some pnum =>
        match pa pnum with
        | some assign =>
          { c with chapter := pyOrStr (some assign.1) c.chapter
                   lesson := pyOrStr assign.2 c.lesson }
        | none => c
      | none => c
    let c :=
      match c.chapter with
      | some ch =>
        if ch != "" then
          match lookupStr chMap ch with
          | some d => { c with chapter_id := some d }
          | none => c
        else c
      | none => c
    let c :=
      match c.lesson with
      | some le =>
        if le != "" then
          match lookupStr leMap le with
          | some d => { c with lesson_id := some d }
          | none => c
        else c
      | none => c
    { c with embedding_index := some (maxIndex + i) })

/-- The success report returned by `ingest_pdf` (`duration_seconds` omitted). -/
structure IngestReport where
  status : String
  chunks_created : Nat
  embeddings_indexed : Nat
  total_pages : Nat
deriving DecidableEq, Repr

/-- Result of one `ingest_pdf` run. `faiss` is the vector count of the
persisted FAISS index; `placements` pairs each inserted chunk's assigned
`embedding_index` with the actual position its vector received in the index. -/
structure IngestOutcome where
  db : Db
  faiss : Nat
  result : Except String IngestReport
  placements : List (Nat × Nat)
deriving Repr

/-- Deletion of a book's rows (`indexer.py` lines 250-253:
`delete_chunks_by_book`, `delete_chapters_by_book`, `delete_lessons_by_book`). -/
def deleteBookRows (db : Db) (book_id : Digest) : Db :=
  { db with
    chunks := db.chunks.filter (fun c => !(c.book_id == some book_id))
    chapters := db.chapters.filter (fun c => !(c.book_id == book_id))
    lessons := db.lessons.filter (fun l => !(l.book_id == book_id)) }

/-- `indexer.ingest_pdf`, from the point where the parsed `pages` and the
normalized TOC `structured` are in hand (download, cache and the
TOC-extraction/LLM-normalization oracles produce those inputs).

Order of effects, as in the source: compute `book_id`; delete the book's
existing chunk/chapter/lesson rows; chunk; embed (a batch failure raises and
aborts here — the deletions have already happened, the FAISS index has not
been touched); probe `max_index` over the chunks now left in the store; load
or create the FAISS index and append the new vectors (`index.add` +
`write_index`); build the TOC page assignments; then build the
`chapter_id_map`/`lesson_id_map`. That map-building loop calls
`ch_info.get("lessons", {}).keys()`, but `structured` values store `lessons`
as a *list*, so with a nonempty `structured` the run raises `AttributeError`
there (after the index append, before any insert). With an empty `structured`
the maps are empty, the chunks are tagged and inserted, the (empty)
chapter/lesson upsert loops run, and the book document is upserted. -/
def ingest_pdf (db : Db) (faiss : Nat) (split : String → List String)
    (book_name : String) (grade : Nat) (pages : List PageRec)
    (structured : List (String × ChapterInfo))
    (embedOutcome : Except String Unit) : IngestOutcome :=
  let book_id := compute_book_id book_name grade
  let db1 := deleteBookRows db book_id
  let chunks := chunk_pages split pages book_name grade
  match embedOutcome with
  | .error e => { db := db1, faiss := faiss, result := .error e, placements := [] }
  | .ok () =>
    let maxIndex := match maxEmbIdx db1.chunks with
      | some m => m + 1
      | none => 0
    let faiss2 := faiss + chunks.length
    match structured with
    | _ :: _ =>
      { db := db1, faiss := faiss2
        result := .error "AttributeError: 'list' object has no attribute 'keys'"
        placements := [] }
    | [] =>
      let pa : PageMap := fun _ => none
      let tagged := tagChunks pa [] [] maxIndex chunks
      let db2 := { db1 with
        chunks := db1.chunks ++ tagged.map (fun c => { c with book_id := some book_id })
        books := upsertBook db1.books { book_id := book_id, book_name := book_name, grade := grade } }
      { db := db2, faiss := faiss2
        result := .ok { status := "completed", chunks_created := chunks.length,
                        embeddings_indexed := chunks.length, total_pages := pages.length }
        placements := (List.range chunks.length).map (fun i => (maxIndex + i, faiss + i)) }

/- ## Deletion (`app/api/ingest.py`) -/

/-- Modelled from the spec: `rebuild_faiss_index` is imported by
`app/api/ingest.py` from `app.services.indexer` but is absent from the source
tree. Per the spec's Vector Index Manager `rebuild()`: drop and recreate the
index from the full, current passage store contents, re-adding all surviving
chunks and reassigning `embedding_index` in a single monotonic pass. -/
def rebuild_faiss_index (chunks : List Chunk) : Nat × List Chunk :=
  (chunks.length, chunks.enum.map (fun (i, c) => { c with embedding_index := some i }))

/-- Observable side effects of `_delete_book_resources`, in call order. -/
inductive DeleteEffect where
  | deleteChunks
  | deleteLessons
  | deleteChapters
  | deleteBook
  | clearCache
  | rebuildIndex
deriving DecidableEq, Repr

/-- The response dict of `_delete_book_resources` (status/name fields omitted). -/
structure DeleteResp where
  removed_chunks : Nat
  removed_chapters : Nat
  removed_lessons : Nat
deriving DecidableEq, Repr

/-- `app/api/ingest._delete_book_resources`: delete the book's chunks, lessons
and chapters (collecting `deleted_count`s), delete the book document, clear
the parse cache, and rebuild the FAISS index as the final step. -/
def delete_book_resources (db : Db) (book_id : Digest) :
    Db × Nat × DeleteResp × List DeleteEffect :=
  let keptChunks := db.chunks.filter (fun c => !(c.book_id == some book_id))
  let deletedChunks := db.chunks.length - keptChunks.length
  let keptLessons := db.lessons.filter (fun l => !(l.book_id == book_id))
  let deletedLessons := db.lessons.length - keptLessons.length
  let keptChapters := db.chapters.filter (fun c => !(c.book_id == book_id))
  let deletedChapters := db.chapters.length - keptChapters.length
  let keptBooks := db.books.filter (fun b => !(b.book_id == book_id))
  let db2 : Db := { books := keptBooks, chapters := keptChapters,
                    lessons := keptLessons, chunks := keptChunks }
  let (faiss2, rebuiltChunks) := rebuild_faiss_index db2.chunks
  ({ db2 with chunks := rebuiltChunks }, faiss2,
   { removed_chunks := deletedChunks, removed_chapters := deletedChapters,
     removed_lessons := deletedLessons },
   [.deleteChunks, .deleteLessons, .deleteChapters, .deleteBook, .clearCache, .rebuildIndex])

/-- `DELETE /by-id/{book_id}` (`delete_ingested_book_by_id`): 404 when the book
document does not exist, else `_delete_book_resources`. -/
def delete_ingested_book_by_id (db : Db) (book_id : Digest) :
    Except String (Db × Nat × DeleteResp × List DeleteEffect) :=
  match getBookById db.books book_id with
  | none => .error "404: Book not found"
  | some _ => .ok (delete_book_resources db book_id)

/- ## Retrieval (`rag_engine.rag_query`) -/

/-- One source citation attached to the outline (`round(..., 4)` on the
confidence is omitted; no claim touches it). -/
structure SourceCit where
  book : String
  chapter : String
  lesson : String
  pages : List Nat
  confidence : ℚ
deriving DecidableEq, Repr

/-- The outline dict returned by `rag_query`, plus the `dists`/`idxs` lists of
its result triple. -/
structure RagAnswer where
  sections : List String
  note : Option String
  sources : List SourceCit
  dists : List ℚ
  idxs : List Int
deriving DecidableEq, Repr

/-- Result of a `rag_query` call: the returned value (or the uncaught
exception), plus whether `embed_query`, `index.search` and `_call_llm` were
invoked. -/
structure RagResult where
  outcome : Except String RagAnswer
  embedCalled : Bool
  searchCalled : Bool
  llmCalled : Bool

/-- Environment of one `rag_query` call: the Mongo collections, the FAISS
index state, and the oracle outcomes of the external calls
(`embed_query`, `index.search` row 0 as `(index, distance)` pairs — an error
is a raised exception — and the parsed `_call_llm` response). -/
structure RagEnv where
  books : List BookDoc
  chapters : List ChapterDoc
  lessons : List LessonDoc
  store : List Chunk
  indexExists : Bool
  numVectors : Nat
  searchRows : Except String (List (Int × ℚ))
  embedOutcome : Except String Unit
  llmSections : List String
  llmNote : Option String

/-- `valid_pairs`, sorted ascending by distance: drop FAISS sentinel/overflow
indices (`idx >= 0 and idx < num_vectors_in_index`), then the stable sort by
distance. (The source tests emptiness before sorting; sorting the empty list
is the identity, so testing on the sorted list is equivalent.) -/
def ragValidSorted (env : RagEnv) : List (Int × ℚ) :=
  match env.searchRows with
  | .error _ => []
  | .ok rows =>
    stableSortBy (fun a b => decide (a.2 < b.2))
      (rows.filter (fun r => decide (0 ≤ r.1) && decide (r.1 < (env.numVectors : Int))))

/-- `ChunkRepository.get_chunks_by_indices`: join each index back to its chunk
by `embedding_index`, keeping the order of `indices` and dropping misses.
(`embedding_index` carries a unique Mongo index, so first-match lookup equals
the source's dict built from the `$in` query.) -/
def get_chunks_by_indices (store : List Chunk) (indices : List Int) : List Chunk :=
  indices.filterMap (fun idx =>
    store.find? (fun c => c.embedding_index.any (fun n => (n : Int) == idx)))

/-- Exact scope predicate: `book_id ∧ chapter_id ∧ lesson_id`. -/
def chunkMatchesScope (bid cid lid : Digest) (c : Chunk) : Bool :=
  c.book_id == some bid && c.chapter_id == some cid && c.lesson_id == some lid

/-- Relaxed predicate: `book_id ∧ chapter_id`. -/
def chunkMatchesChapter (bid cid : Digest) (c : Chunk) : Bool :=
  c.book_id == some bid && c.chapter_id == some cid

/-- Fully relaxed predicate: `book_id` only. -/
def chunkMatchesBook (bid : Digest) (c : Chunk) : Bool :=
  c.book_id == some bid

/-- The scope filtering cascade of `rag_query` (lines 367-392): exact match,
else chapter level, else book level. -/
def scopeSelect (retrieved : List Chunk) (bid cid lid : Digest) : List Chunk :=
  let exact := retrieved.filter (chunkMatchesScope bid cid lid)
  if !exact.isEmpty then exact
  else
    let byChapter := retrieved.filter (chunkMatchesChapter bid cid)
    if !byChapter.isEmpty then byChapter
    else retrieved.filter (chunkMatchesBook bid)

/-- The chunks joined back from the sorted valid search results. -/
def ragRetrieved (env : RagEnv) : List Chunk :=
  get_chunks_by_indices env.store ((ragValidSorted env).map (·.1))

/-- The chunks surviving the scope filtering cascade. -/
def ragFiltered (env : RagEnv) (bid cid lid : Digest) : List Chunk :=
  scopeSelect (ragRetrieved env) bid cid lid

/-- `RELEVANCE_THRESHOLD = 0.35`. -/
def RELEVANCE_THRESHOLD : ℚ := mkRat 35 100

/-- One source citation (`rag_query` lines 416-449): names resolved through
the repositories, `N/A` on any miss; `confidence = max(0, 1 - distance)`. -/
def sourceFor (env : RagEnv) (dists : List ℚ) (i : Nat) (c : Chunk) : SourceCit :=
  let d := dists.getD i 1
  { book :=
      match c.book_id with
      | some bid =>
        match getBookById env.books bid with
        | some b => b.book_name
        | none => "N/A"
      | none => "N/A"
    chapter :=
      match c.chapter_id with
      | some cid =>
        match getChapterById env.chapters cid with
        | some ch => ch.title
        | none => "N/A"
      | none => "N/A"
    lesson :=
      match c.lesson_id with
      | some lid =>
        match getLessonById env.lessons lid with
        | some le => le.title
        | none => "N/A"
      | none => "N/A"
    pages := [c.page.getD 0]
    confidence := max 0 (1 - d) }

/-- `rag_engine.rag_query`. Control flow as in the source: missing lesson or
missing book short-circuits before the query is embedded (a missing *chapter*
does not — the lookup result is merely carried along); then query embedding,
index load, the empty-index check, FAISS search, invalid-index filtering,
the scope cascade, the relevance gate, and only past the gate the LLM call
and source citations. Diagnostic notes keep the source wording, with
interpolated ids/values elided. -/
def rag_query (grade : Nat) (book_id chapter_id lesson_id : Digest)
    (content : String) (k : Nat) (env : RagEnv) : RagResult :=
  match getLessonById env.lessons lesson_id with
  | none =>
    { outcome := .ok { sections := [], note := some "Lesson not found",
                       sources := [], dists := [], idxs := [] },
      embedCalled := false, searchCalled := false, llmCalled := false }
  | some lesson =>
    let chapter := getChapterById env.chapters chapter_id
    match getBookById env.books book_id with
    | none =>
      { outcome := .ok { sections := [], note := some "Book not found",
                         sources := [], dists := [], idxs := [] },
        embedCalled := false, searchCalled := false, llmCalled := false }
    | some _ =>
      let _query_parts :=
        (match chapter with | some ch => [ch.title] | none => []) ++
        [lesson.title] ++ (if content == "" then [] else [content])
      match env.embedOutcome with
      | .error e =>
        { outcome := .error e, embedCalled := true, searchCalled := false, llmCalled := false }
      | .ok () =>
        if !env.indexExists then
          { outcome := .error "FileNotFoundError: FAISS index file not found",
            embedCalled := true, searchCalled := false, llmCalled := false }
        else if env.numVectors == 0 then
          { outcome := .ok { sections := [],
                             note := some "Chưa có dữ liệu SGK. Vui lòng ingest sách trước.",
                             sources := [], dists := [], idxs := [] },
            embedCalled := true, searchCalled := false, llmCalled := false }
        else
          let _k_search := min (k * 3) env.numVectors
          match env.searchRows with
          | .error _ =>
            { outcome := .ok { sections := [], note := some "Lỗi tìm kiếm.",
                               sources := [], dists := [], idxs := [] },
              embedCalled := true, searchCalled := true, llmCalled := false }
          | .ok _ =>
            let pairs := ragValidSorted env
            if pairs.isEmpty then
              { outcome := .ok { sections := [],
                                 note := some "Lỗi tìm kiếm. Vui lòng thử lại.",
                                 sources := [], dists := [], idxs := [] },
                embedCalled := true, searchCalled := true, llmCalled := false }
            else
              let idxs := pairs.map (·.1)
              let dists := pairs.map (·.2)
              let filtered := ragFiltered env book_id chapter_id lesson_id
              if filtered.isEmpty || decide (dists.headD 0 > RELEVANCE_THRESHOLD) then
                { outcome := .ok { sections := [],
                                   note := some "Không tìm thấy nội dung phù hợp trong SGK (độ tương đồng thấp).",
                                   sources := [],
                                   dists := dists.take filtered.length,
                                   idxs := idxs.take filtered.length },
                  embedCalled := true, searchCalled := true, llmCalled := false }
              else
                let sources := (filtered.take 3).enum.map (fun (i, c) => sourceFor env dists i c)
                { outcome := .ok { sections := env.llmSections, note := env.llmNote,
                                   sources := sources,
                                   dists := dists.take filtered.length,
                                   idxs := idxs.take filtered.length },
                  embedCalled := true, searchCalled := true, llmCalled := true }

instance {ε α : Type} [DecidableEq ε] [DecidableEq α] : DecidableEq (Except ε α) := fun a b =>
  match a, b with
  | .error e, .error f =>
    if h : e = f then isTrue (by subst h; rfl)
    else isFalse (by intro hh; injection hh; contradiction)
  | .error _, .ok _ => isFalse (by intro hh; exact Except.noConfusion hh)
  | .ok _, .error _ => isFalse (by intro hh; exact Except.noConfusion hh)
  | .ok x, .ok y =>
    if h : x = y then isTrue (by subst h; rfl)
    else isFalse (by intro hh; injection hh; contradiction)

/-- The identity splitter: a concrete instance of the text-splitter oracle in
which each page becomes a single chunk (as the real splitter does for any
page shorter than the 800-word chunk size). -/
def splitWhole : String → List String := fun t => [t]

def bookIdB1 : Digest := compute_book_id "b" 1

/-- A store holding one already-ingested book "b" (grade 1) with one chunk,
one chapter and one lesson, and a FAISS index holding its one vector. -/
def dbC1 : Db :=
  { books := [{ book_id := bookIdB1, book_name := "b", grade := 1 }]
    chapters := [{ chapter_id := [10], book_id := bookIdB1, title := "Chương 1. A", order := 0 }]
    lessons := [{ lesson_id := [11], chapter_id := [10], book_id := bookIdB1,
                  title := "Bài 1. B", page := some 2, order := 0 }]
    chunks := [{ chunk_id := 1, book := some "b", grade := some 1, page := some 1,
                 text := "x", book_id := some bookIdB1, embedding_index := some 0 }] }

def pagesHello : List PageRec := [{ page_num := 1, text := "hello", chapter := "", lesson := "" }]

def emptyDb : Db := { books := [], chapters := [], lessons := [], chunks := [] }

/-- A store holding a book `[1]` with one chunk, one chapter, one lesson, and
a second book `[2]` with one chunk that must survive the deletion. -/
def dbC3 : Db :=
  { books := [{ book_id := [1], book_name := "n", grade := 1 },
              { book_id := [2], book_name := "m", grade := 2 }]
    chapters := [{ chapter_id := [10], book_id := [1], title := "c", order := 0 }]
    lessons := [{ lesson_id := [11], chapter_id := [10], book_id := [1],
                  title := "l", page := none, order := 0 }]
    chunks := [{ chunk_id := 1, book_id := some [1], embedding_index := some 0 },
               { chunk_id := 2, book_id := some [2], embedding_index := some 1 }] }

/-- The 31st page of a document whose chapter and lesson were detected only by
in-body heading detection (nonempty `chapter`/`lesson` on the page record). -/
def pageC8 : PageRec :=
  { page_num := 31, text := "hello", chapter := "Chương 1. Mở đầu", lesson := "Bài 1. Một" }

/-- Environment for the C6 witness: scope resolves, one vector whose best L2
distance 1.0 exceeds the 0.35 threshold. -/
def envC6 : RagEnv :=
  { books := [{ book_id := [1], book_name := "n", grade := 8 }]
    chapters := [{ chapter_id := [2], book_id := [1], title := "c", order := 0 }]
    lessons := [{ lesson_id := [3], chapter_id := [2], book_id := [1],
                  title := "t", page := none, order := 0 }]
    store := [{ chunk_id := 1, book_id := some [1], chapter_id := some [2],
                lesson_id := some [3], page := some 1, embedding_index := some 0 }]
    indexExists := true
    numVectors := 1
    searchRows := .ok [(0, mkRat 1 1)]
    embedOutcome := .ok ()
    llmSections := ["s"]
    llmNote := none }

/-- Environment for the C7 counterexample: the lesson and the book exist, but
the referenced chapter does NOT exist in the store. -/
def envC7 : RagEnv :=
  { books := [{ book_id := [1], book_name := "n", grade := 8 }]
    chapters := []
    lessons := [{ lesson_id := [3], chapter_id := [2], book_id := [1],
                  title := "t", page := none, order := 0 }]
    store := [{ chunk_id := 1, book_id := some [1], chapter_id := some [2],
                lesson_id := some [3], page := some 1, embedding_index := some 0 }]
    indexExists := true
    numVectors := 1
    searchRows := .ok [(0, mkRat 1 10)]
    embedOutcome := .ok ()
    llmSections := ["s"]
    llmNote := none }

/-- Environment for the C7 witness: empty stores, so the lesson is missing. -/
def envC7W : RagEnv :=
  { books := [], chapters := [], lessons := [], store := [], indexExists := false,
    numVectors := 0, searchRows := .ok [], embedOutcome := .ok (),
    llmSections := [], llmNote := none }

/-- The TOC skeleton for the C10 witness: one chapter with one paged lesson. -/
def structC10 : List (String × ChapterInfo) :=
  [("Chương I. A", { lessons := ["Bài 1. X"], lesson_pages := [("Bài 1. X", 5)] })]

theorem mem_insertStable {α : Type} (lt : α → α → Bool) (a x : α) (l : List α) :
    x ∈ insertStable lt a l ↔ x = a ∨ x ∈ l := by
  induction l with
  | nil => simp [insertStable]
  | cons b bs ih =>
    simp only [insertStable]
    split
    · simp [or_assoc]
    · simp only [List.mem_cons, ih]
      tauto

theorem mem_stableSortBy {α : Type} (lt : α → α → Bool) (x : α) (l : List α) :
    x ∈ stableSortBy lt l ↔ x ∈ l := by
  suffices h : ∀ acc : List α, x ∈ l.foldl (fun acc a => insertStable lt a acc) acc ↔
      x ∈ acc ∨ x ∈ l by
    simpa [stableSortBy] using h []
  induction l with
  | nil => simp
  | cons b bs ih =>
    intro acc
    simp only [List.foldl_cons, ih, mem_insertStable, List.mem_cons]
    tauto

/-- A reference digest: md5("abc") = 900150983cd24fb0d6963f7d28e17f72. -/
example : md5HexCps (utf8Bytes (strCps "abc")) =
    strCps "900150983cd24fb0d6963f7d28e17f72" := by decide

theorem parseTextPages_length (inputs : List (String × String × String))
    (i : Nat) (c l : String) : (parseTextPages i c l inputs).length = inputs.length := by
  induction inputs generalizing i c l with
  | nil => rfl
  | cons hd tl ih => simp [parseTextPages, ih]

theorem parseTextPages_pageNums (inputs : List (String × String × String))
    (i : Nat) (c l : String) :
    (parseTextPages i c l inputs).map (·.page_num) = List.range' (i + 1) inputs.length := by
  induction inputs generalizing i c l with
  | nil => rfl
  | cons hd tl ih => simp [parseTextPages, List.range'_succ, ih]

theorem parseOcrPages_length (detect : String → String × String)
    (inputs : List OcrPage) (i : Nat) (c l : String) :
    (parseOcrPages detect i c l inputs).length = inputs.length := by
  induction inputs generalizing i c l with
  | nil => rfl
  | cons hd tl ih =>
    cases hd with
    | ok txt => simp [parseOcrPages, ih]
    | osErr fb => cases fb <;> simp [parseOcrPages, ih]
    | otherErr => simp [parseOcrPages, ih]

theorem parseOcrPages_pageNums (detect : String → String × String)
    (inputs : List OcrPage) (i : Nat) (c l : String) :
    (parseOcrPages detect i c l inputs).map (·.page_num) =
      List.range' (i + 1) inputs.length := by
  induction inputs generalizing i c l with
  | nil => rfl
  | cons hd tl ih =>
    cases hd with
    | ok txt => simp [parseOcrPages, List.range'_succ, ih]
    | osErr fb => cases fb <;> simp [parseOcrPages, List.range'_succ, ih]
    | otherErr => simp [parseOcrPages, List.range'_succ, ih]

theorem parseOcrPages_texts (detect : String → String × String)
    (inputs : List OcrPage) (i : Nat) (c l : String) :
    (parseOcrPages detect i c l inputs).map (·.text) = inputs.map ocrPageText := by
  induction inputs generalizing i c l with
  | nil => rfl
  | cons hd tl ih =>
    cases hd with
    | ok txt => simp [parseOcrPages, ocrPageText, ih]
    | osErr fb => cases fb <;> simp [parseOcrPages, ocrPageText, ih]
    | otherErr => simp [parseOcrPages, ocrPageText, ih]

/- ## Claim theorems -/

/-- Claim C4: for every N-page PDF, `parse_pdf_bytes` returns exactly N page
records with contiguous `page_num` values 1..N on both the text-layer and the
OCR path; on the OCR path, a page whose OCR fails is recovered via direct
text extraction, and if that also fails an empty-text placeholder record is
emitted, so no page number is ever dropped. -/
theorem c4_page_count_preservation (detect : String → String × String)
    (shouldText : Bool) (textInputs : List (String × String × String))
    (ocrInputs : List OcrPage) (N : Nat)
    (hN : N = if shouldText then textInputs.length else ocrInputs.length)
    (hpos : 0 < N) :
    ∃ ps, parse_pdf_bytes detect shouldText textInputs ocrInputs = .ok ps ∧
      ps.length = N ∧
      ps.map (·.page_num) = List.range' 1 N ∧
      (shouldText = false → ps.map (·.text) = ocrInputs.map ocrPageText) := by
  cases shouldText with
  | true =>
    simp only [if_true] at hN
    refine ⟨parseTextPages 0 "" "" textInputs, ?_, ?_, ?_, ?_⟩
    · have hlen := parseTextPages_length textInputs 0 "" ""
      simp only [parse_pdf_bytes, if_true]
      rw [if_neg]
      omega
    · rw [parseTextPages_length]; omega
    · rw [parseTextPages_pageNums]; rw [hN]
    · intro h; exact absurd h (by simp)
  | false =>
    simp at hN
    refine ⟨parseOcrPages detect 0 "" "" ocrInputs, ?_, ?_, ?_, ?_⟩
    · have hlen := parseOcrPages_length detect ocrInputs 0 "" ""
      simp only [parse_pdf_bytes, Bool.false_eq_true, if_false]
      rw [if_neg]
      omega
    · rw [parseOcrPages_length]; omega
    · rw [parseOcrPages_pageNums]; rw [hN]
    · intro _; exact parseOcrPages_texts detect ocrInputs 0 "" ""

/-- Witness for C4 at a concrete 4-page OCR run exercising all recovery
paths: successful OCR, OSError with a working direct-text fallback, OSError
with a failing fallback, and an unexpected OCR error. -/
theorem c4_witness :
    ∃ ps, parse_pdf_bytes (fun _ => ("", "")) false []
        [OcrPage.ok "a", .osErr (some "b"), .osErr none, .otherErr] = .ok ps ∧
      ps.length = 4 ∧
      ps.map (·.page_num) = List.range' 1 4 ∧
      (false = false →
        ps.map (·.text) =
          [OcrPage.ok "a", .osErr (some "b"), .osErr none, .otherErr].map ocrPageText) :=
  c4_page_count_preservation (fun _ => ("", "")) false []
    [OcrPage.ok "a", .osErr (some "b"), .osErr none, .otherErr] 4 (by decide) (by decide)

/-- Claim C5: over any fixed list of retrieved passage records, the set kept
by the exact filter (book ∧ chapter ∧ lesson) is a subset of the set kept by
(book ∧ chapter), which is a subset of the set kept by (book) alone; and the
cascade used by `rag_query` applies the filters in that order, relaxing only
when the stricter level is empty. -/
theorem c5_scope_monotonicity (retrieved : List Chunk) (bid cid lid : Digest) :
    (∀ c ∈ retrieved.filter (chunkMatchesScope bid cid lid),
        c ∈ retrieved.filter (chunkMatchesChapter bid cid)) ∧
    (∀ c ∈ retrieved.filter (chunkMatchesChapter bid cid),
        c ∈ retrieved.filter (chunkMatchesBook bid)) ∧
    (retrieved.filter (chunkMatchesScope bid cid lid) ≠ [] →
      scopeSelect retrieved bid cid lid =
        retrieved.filter (chunkMatchesScope bid cid lid)) ∧
    (retrieved.filter (chunkMatchesScope bid cid lid) = [] →
      retrieved.filter (chunkMatchesChapter bid cid) ≠ [] →
      scopeSelect retrieved bid cid lid =
        retrieved.filter (chunkMatchesChapter bid cid)) ∧
    (retrieved.filter (chunkMatchesScope bid cid lid) = [] →
      retrieved.filter (chunkMatchesChapter bid cid) = [] →
      scopeSelect retrieved bid cid lid =
        retrieved.filter (chunkMatchesBook bid)) := by
  refine ⟨?_, ?_, ?_, ?_, ?_⟩
  · intro c hc
    rw [List.mem_filter] at hc ⊢
    refine ⟨hc.1, ?_⟩
    have h2 := hc.2
    simp only [chunkMatchesScope, Bool.and_eq_true] at h2
    simp only [chunkMatchesChapter, Bool.and_eq_true]
    exact h2.1
  · intro c hc
    rw [List.mem_filter] at hc ⊢
    refine ⟨hc.1, ?_⟩
    have h2 := hc.2
    simp only [chunkMatchesChapter, Bool.and_eq_true] at h2
    simp only [chunkMatchesBook]
    exact h2.1
  · intro h
    simp only [scopeSelect]
    rw [if_pos]
    simpa [List.isEmpty_iff] using h
  · intro h1 h2
    simp only [scopeSelect]
    rw [if_neg, if_pos]
    · simpa [List.isEmpty_iff] using h2
    · simpa [List.isEmpty_iff] using h1
  · intro h1 h2
    simp only [scopeSelect]
    rw [if_neg, if_neg]
    · simpa [List.isEmpty_iff] using h2
    · simpa [List.isEmpty_iff] using h1

/-- Witness for C5: a chunk matching only the book level is selected by the
fully relaxed stage when both stricter filters come up empty. -/
theorem c5_witness :
    scopeSelect [{ book_id := some [1] : Chunk }] [1] [2] [3] =
      List.filter (chunkMatchesBook [1]) [{ book_id := some [1] : Chunk }] :=
  (c5_scope_monotonicity [{ book_id := some [1] : Chunk }] [1] [2] [3]).2.2.2.2
    (by decide) (by decide)

theorem length_filter_add_not {α : Type} (p : α → Bool) (l : List α) :
    (l.filter p).length + (l.filter (fun a => !(p a))).length = l.length := by
  induction l with
  | nil => rfl
  | cons a l ih =>
    by_cases h : p a
    · simp [List.filter_cons, h]
      omega
    · simp [List.filter_cons, h]
      omega

theorem snd_mem_of_mem_enum {α : Type} {l : List α} {q : Nat × α} (h : q ∈ l.enum) :
    q.2 ∈ l := by
  have hm := List.enum_map_snd l
  rw [← hm]
  exact List.mem_map_of_mem _ h

/-- Claim C1 counterexample: re-ingesting book "b" with a failing embedding
batch aborts the run with an error, but the previously persisted state is NOT
left untouched — the book's prior Chunk, Chapter and Lesson rows were already
deleted before the embedding call, so the store has changed (no chunk rows
remain for the book). -/
theorem c1_counterexample :
    (ingest_pdf dbC1 1 splitWhole "b" 1
        [{ page_num := 1, text := "hello", chapter := "", lesson := "" }] []
        (.error "embedding batch failed")).result = .error "embedding batch failed" ∧
    (ingest_pdf dbC1 1 splitWhole "b" 1
        [{ page_num := 1, text := "hello", chapter := "", lesson := "" }] []
        (.error "embedding batch failed")).db.chunks = [] ∧
    dbC1.chunks ≠ [] ∧
    (ingest_pdf dbC1 1 splitWhole "b" 1
        [{ page_num := 1, text := "hello", chapter := "", lesson := "" }] []
        (.error "embedding batch failed")).db ≠ dbC1 := by decide

/-- Claim C1 (amended): when an embedding batch call fails, the ingestion run
aborts with that error and the vector index and the book table are left
untouched, and no new chunk/chapter/lesson rows are written — but the book's
prior Chunk, Chapter and Lesson rows have already been deleted (the deletion
happens before the embedding call), so the prior state is not fully
preserved. -/
theorem c1_amended_embed_failure (db : Db) (faiss : Nat) (split : String → List String)
    (book_name : String) (grade : Nat) (pages : List PageRec)
    (structured : List (String × ChapterInfo)) (e : String) :
    (ingest_pdf db faiss split book_name grade pages structured (.error e)).result = .error e ∧
    (ingest_pdf db faiss split book_name grade pages structured (.error e)).faiss = faiss ∧
    (ingest_pdf db faiss split book_name grade pages structured (.error e)).db.books = db.books ∧
    (ingest_pdf db faiss split book_name grade pages structured (.error e)).db.chunks =
      db.chunks.filter (fun c => !(c.book_id == some (compute_book_id book_name grade))) ∧
    (ingest_pdf db faiss split book_name grade pages structured (.error e)).db.chapters =
      db.chapters.filter (fun c => !(c.book_id == compute_book_id book_name grade)) ∧
    (ingest_pdf db faiss split book_name grade pages structured (.error e)).db.lessons =
      db.lessons.filter (fun l => !(l.book_id == compute_book_id book_name grade)) := by
  refine ⟨rfl, rfl, rfl, rfl, rfl, rfl⟩

/-- Claim C2 (code bug), evaluated at the failing input: ingest book "b" into
an empty store (its one chunk gets `embedding_index` 0 at vector position 0),
then re-ingest the same book. The second run deletes the book's chunk rows
*before* probing the maximum `embedding_index`, so the probe sees an empty
collection and restarts at 0 — while the new vector is appended at position 1
of the still-loaded index. The stored `embedding_index` no longer addresses
the newly appended vector. -/
theorem c2_reingest_misaligned :
    (ingest_pdf emptyDb 0 splitWhole "b" 1 pagesHello [] (.ok ())).placements = [(0, 0)] ∧
    (ingest_pdf
        (ingest_pdf emptyDb 0 splitWhole "b" 1 pagesHello [] (.ok ())).db
        (ingest_pdf emptyDb 0 splitWhole "b" 1 pagesHello [] (.ok ())).faiss
        splitWhole "b" 1 pagesHello [] (.ok ())).placements = [(0, 1)] ∧
    ((ingest_pdf
        (ingest_pdf emptyDb 0 splitWhole "b" 1 pagesHello [] (.ok ())).db
        (ingest_pdf emptyDb 0 splitWhole "b" 1 pagesHello [] (.ok ())).faiss
        splitWhole "b" 1 pagesHello [] (.ok ())).placements.all
      (fun p => p.1 == p.2)) = false := by decide

/-- Claim C3: for every `book_id` whose book exists, the delete endpoint
removes that book's chunks, chapters and lessons, returns their removed
counts, and triggers a rebuild of the vector index as its final step.
(The rebuild itself is modelled from the spec, `rebuild_faiss_index` being
imported by `app/api/ingest.py` but absent from the source tree.) -/
theorem c3_delete_book (db : Db) (bid : Digest) (b : BookDoc)
    (hb : getBookById db.books bid = some b) :
    ∃ db2 faiss2 resp effs,
      delete_ingested_book_by_id db bid = .ok (db2, faiss2, resp, effs) ∧
      resp.removed_chunks = (db.chunks.filter (fun c => c.book_id == some bid)).length ∧
      resp.removed_chapters = (db.chapters.filter (fun c => c.book_id == bid)).length ∧
      resp.removed_lessons = (db.lessons.filter (fun l => l.book_id == bid)).length ∧
      (∀ c ∈ db2.chunks, c.book_id ≠ some bid) ∧
      (∀ c ∈ db2.chapters, c.book_id ≠ bid) ∧
      (∀ l ∈ db2.lessons, l.book_id ≠ bid) ∧
      effs.getLast? = some DeleteEffect.rebuildIndex ∧
      faiss2 = db2.chunks.length := by
  refine ⟨(delete_book_resources db bid).1, (delete_book_resources db bid).2.1,
    (delete_book_resources db bid).2.2.1, (delete_book_resources db bid).2.2.2,
    ?_, ?_, ?_, ?_, ?_, ?_, ?_, ?_, ?_⟩
  · rw [delete_ingested_book_by_id, hb]
  · show db.chunks.length - (db.chunks.filter (fun c => !(c.book_id == some bid))).length = _
    have h := length_filter_add_not (fun c => c.book_id == some bid) db.chunks
    omega
  · show db.chapters.length - (db.chapters.filter (fun c => !(c.book_id == bid))).length = _
    have h := length_filter_add_not (fun c : ChapterDoc => c.book_id == bid) db.chapters
    omega
  · show db.lessons.length - (db.lessons.filter (fun l => !(l.book_id == bid))).length = _
    have h := length_filter_add_not (fun l : LessonDoc => l.book_id == bid) db.lessons
    omega
  · intro c hc
    have hc2 : c ∈ ((db.chunks.filter (fun c => !(c.book_id == some bid))).enum.map
        (fun q => { q.2 with embedding_index := some q.1 })) := hc
    obtain ⟨q, hq, rfl⟩ := List.mem_map.mp hc2
    have hm : q.2 ∈ db.chunks.filter (fun c => !(c.book_id == some bid)) :=
      snd_mem_of_mem_enum hq
    have hp := (List.mem_filter.mp hm).2
    simp only [Bool.not_eq_eq_eq_not, Bool.not_true, beq_eq_false_iff_ne, ne_eq] at hp
    exact hp
  · intro c hc
    have hp := (List.mem_filter.mp hc).2
    simp only [Bool.not_eq_eq_eq_not, Bool.not_true, beq_eq_false_iff_ne, ne_eq] at hp
    exact hp
  · intro l hl
    have hp := (List.mem_filter.mp hl).2
    simp only [Bool.not_eq_eq_eq_not, Bool.not_true, beq_eq_false_iff_ne, ne_eq] at hp
    exact hp
  · rfl
  · show (db.chunks.filter (fun c => !(c.book_id == some bid))).length = _
    simp [delete_book_resources, rebuild_faiss_index]

/-- Witness for C3 at a concrete two-book store. -/
theorem c3_witness :
    ∃ db2 faiss2 resp effs,
      delete_ingested_book_by_id dbC3 [1] = .ok (db2, faiss2, resp, effs) ∧
      resp.removed_chunks = (dbC3.chunks.filter (fun c => c.book_id == some [1])).length ∧
      resp.removed_chapters = (dbC3.chapters.filter (fun c => c.book_id == [1])).length ∧
      resp.removed_lessons = (dbC3.lessons.filter (fun l => l.book_id == [1])).length ∧
      (∀ c ∈ db2.chunks, c.book_id ≠ some [1]) ∧
      (∀ c ∈ db2.chapters, c.book_id ≠ [1]) ∧
      (∀ l ∈ db2.lessons, l.book_id ≠ [1]) ∧
      effs.getLast? = some DeleteEffect.rebuildIndex ∧
      faiss2 = db2.chunks.length :=
  c3_delete_book dbC3 [1] { book_id := [1], book_name := "n", grade := 1 } (by decide)

/-- Claim C8 counterexample: the chunker does NOT inherit the page's detected
chapter/lesson. `pageC8` carries nonempty detected `chapter` and `lesson`,
yet the chunk produced from it has no `chapter`/`lesson` key at all
(`chunk_pages` only writes `chunk_id`, `book`, `grade`, `page`, `text`). -/
theorem c8_counterexample :
    pageC8.chapter ≠ "" ∧ pageC8.lesson ≠ "" ∧
    (chunk_pages splitWhole [pageC8] "b" 1).map (·.chapter) = [none] ∧
    (chunk_pages splitWhole [pageC8] "b" 1).map (·.lesson) = [none] := by decide

theorem chunk_pages_foldl_mem (split : String → List String) (bn : String) (g : Nat) :
    ∀ (l : List PageRec) (acc : List Chunk) (c : Chunk),
      c ∈ l.foldl (fun acc p =>
        acc ++ (split p.text).enum.map (fun (j, t) =>
          { chunk_id := acc.length + j + 1, book := some bn, grade := some g,
            page := some p.page_num, text := t : Chunk })) acc →
      c ∈ acc ∨ ∃ p ∈ l,
        c.book = some bn ∧ c.grade = some g ∧ c.chapter = none ∧ c.lesson = none ∧
        c.chapter_id = none ∧ c.lesson_id = none ∧ c.embedding_index = none ∧
        c.page = some p.page_num ∧ c.text ∈ split p.text := by
  intro l
  induction l with
  | nil => intro acc c hc; exact Or.inl hc
  | cons hd tl ih =>
    intro acc c hc
    rcases ih _ c hc with h | h
    · rcases List.mem_append.mp h with h1 | h2
      · exact Or.inl h1
      · right
        refine ⟨hd, List.mem_cons_self _ _, ?_⟩
        obtain ⟨q, hq, rfl⟩ := List.mem_map.mp h2
        refine ⟨rfl, rfl, rfl, rfl, rfl, rfl, rfl, rfl, ?_⟩
        exact snd_mem_of_mem_enum hq
    · obtain ⟨p, hp, hrest⟩ := h
      exact Or.inr ⟨p, List.mem_cons_of_mem _ hp, hrest⟩

/-- Claim C8 (amended): the chunker attaches only the uniform `book`/`grade`,
the source page number and the split text to each chunk — never the page's
detected chapter/lesson, which are dropped; and in the only reachable tagging
configuration of `ingest_pdf` (an empty TOC page-assignment map), the tagged
chunks still carry no chapter/lesson and no chapter/lesson ids, so every
persisted chunk of such a run — including chunks of pages before the first
heading — has null chapter/lesson. -/
theorem c8_amended_chunk_tags (split : String → List String) (pages : List PageRec)
    (bn : String) (g : Nat) (chM leM : List (String × Digest)) (mi : Nat) :
    (∀ c ∈ chunk_pages split pages bn g,
      c.book = some bn ∧ c.grade = some g ∧ c.chapter = none ∧ c.lesson = none ∧
      c.chapter_id = none ∧ c.lesson_id = none ∧
      ∃ p ∈ pages, c.page = some p.page_num ∧ c.text ∈ split p.text) ∧
    (∀ x ∈ tagChunks (fun _ => none) chM leM mi (chunk_pages split pages bn g),
      x.chapter = none ∧ x.lesson = none ∧ x.chapter_id = none ∧ x.lesson_id = none) := by
  constructor
  · intro c hc
    rcases chunk_pages_foldl_mem split bn g pages [] c hc with h | h
    · simp at h
    · obtain ⟨p, hp, h1, h2, h3, h4, h5, h6, _h7, h8, h9⟩ := h
      exact ⟨h1, h2, h3, h4, h5, h6, p, hp, h8, h9⟩
  · intro x hx
    obtain ⟨q, hq, rfl⟩ := List.mem_map.mp hx
    have hc : q.2 ∈ chunk_pages split pages bn g := snd_mem_of_mem_enum hq
    rcases chunk_pages_foldl_mem split bn g pages [] q.2 hc with h | h
    · simp at h
    · obtain ⟨p, _hp, _h1, _h2, h3, h4, h5, h6, _h7, _h8, _h9⟩ := h
      cases hpg : q.2.page <;>
        simp [tagChunks, hpg, h3, h4, h5, h6, Option.bind]

/-- Witness for C8 (amended), at the in-body-detection page `pageC8`: the
chunk produced from it, tagged with the empty assignment map, has null
chapter/lesson and null ids. -/
theorem c8_witness :
    ({ chunk_id := 1, book := some "b", grade := some 1, page := some 31,
       text := "hello", embedding_index := some 0 : Chunk }).chapter = none ∧
    ({ chunk_id := 1, book := some "b", grade := some 1, page := some 31,
       text := "hello", embedding_index := some 0 : Chunk }).lesson = none ∧
    ({ chunk_id := 1, book := some "b", grade := some 1, page := some 31,
       text := "hello", embedding_index := some 0 : Chunk }).chapter_id = none ∧
    ({ chunk_id := 1, book := some "b", grade := some 1, page := some 31,
       text := "hello", embedding_index := some 0 : Chunk }).lesson_id = none :=
  (c8_amended_chunk_tags splitWhole [pageC8] "b" 1 [] [] 0).2
    { chunk_id := 1, book := some "b", grade := some 1, page := some 31,
      text := "hello", embedding_index := some 0 : Chunk } (by decide)

theorem length_replaceFirstBook (books : List BookDoc) (d : BookDoc) :
    (replaceFirstBook books d).length = books.length := by
  induction books with
  | nil => rfl
  | cons b bs ih =>
    simp only [replaceFirstBook]
    split <;> simp [ih]

theorem any_upsertBook (books : List BookDoc) (d : BookDoc) :
    (upsertBook books d).any (fun b => b.book_id == d.book_id) = true := by
  unfold upsertBook
  split
  · rename_i h
    induction books with
    | nil => simp at h
    | cons b bs ih =>
      simp only [replaceFirstBook]
      split
      · simp
      · rename_i hb
        simp only [List.any_cons, hb, Bool.false_or]
        apply ih
        simp only [List.any_cons, hb, Bool.false_or] at h
        exact h
  · simp

/-- Claim C9: entity ids are deterministic pure functions of their inputs —
`book_id` depends only on the normalized (stripped, lowercased) name and the
grade; chapter/lesson ids are likewise pure functions of (parent id,
normalized title); ids differ when the grade differs (checked on the md5
values at representative inputs, md5 not being injective in general); and
upserting under an already-present id replaces the row instead of adding one,
so re-ingesting the same (name, grade) overwrites rather than duplicates. -/
theorem c9_deterministic_ids :
    (∀ n1 n2 g, pyNormCps n1 = pyNormCps n2 → compute_book_id n1 g = compute_book_id n2 g) ∧
    (∀ (bid : Digest) t1 t2, pyNormCps t1 = pyNormCps t2 →
      compute_chapter_id bid t1 = compute_chapter_id bid t2) ∧
    (∀ (cid : Digest) t1 t2, pyNormCps t1 = pyNormCps t2 →
      compute_lesson_id cid t1 = compute_lesson_id cid t2) ∧
    compute_book_id " Toán 10 " 10 = compute_book_id "toán 10" 10 ∧
    compute_book_id "Toán 10" 10 ≠ compute_book_id "Toán 10" 11 ∧
    (∀ (books : List BookDoc) (d1 d2 : BookDoc), d2.book_id = d1.book_id →
      (upsertBook (upsertBook books d1) d2).length = (upsertBook books d1).length) := by
  refine ⟨?_, ?_, ?_, by decide, by decide, ?_⟩
  · intro n1 n2 g h
    unfold compute_book_id
    rw [h]
  · intro bid t1 t2 h
    unfold compute_chapter_id
    rw [h]
  · intro cid t1 t2 h
    unfold compute_lesson_id
    rw [h]
  · intro books d1 d2 h
    have hany := any_upsertBook books d1
    rw [← h] at hany
    generalize upsertBook books d1 = l at hany ⊢
    unfold upsertBook
    rw [if_pos hany, length_replaceFirstBook]

/-- Witness for C9: normalization invariance and overwrite-not-duplicate at
concrete inputs. -/
theorem c9_witness :
    compute_book_id " A" 2 = compute_book_id "a" 2 ∧
    (upsertBook (upsertBook [] { book_id := [1], book_name := "x", grade := 1 })
        { book_id := [1], book_name := "y", grade := 2 }).length =
      (upsertBook [] { book_id := [1], book_name := "x", grade := 1 }).length :=
  ⟨c9_deterministic_ids.1 " A" "a" 2 (by decide),
   c9_deterministic_ids.2.2.2.2.2 [] { book_id := [1], book_name := "x", grade := 1 }
     { book_id := [1], book_name := "y", grade := 2 } (by decide)⟩

/-- Claim C6: whenever no passages survive scope filtering, or the best
(smallest) L2 distance among the valid search results exceeds the 0.35
threshold, `rag_query` makes no text-generation call and any returned result
has `sections = []` with a non-empty diagnostic note. -/
theorem c6_relevance_gate (grade k : Nat) (bid cid lid : Digest) (content : String)
    (env : RagEnv)
    (hgate : ragFiltered env bid cid lid = [] ∨
      ((ragValidSorted env).map (·.2)).headD 0 > RELEVANCE_THRESHOLD) :
    (rag_query grade bid cid lid content k env).llmCalled = false ∧
    ∀ ans, (rag_query grade bid cid lid content k env).outcome = .ok ans →
      ans.sections = [] ∧ ∃ s, ans.note = some s ∧ s ≠ "" := by
  have hcond : ((ragFiltered env bid cid lid).isEmpty ||
      decide (((ragValidSorted env).map (·.2)).headD 0 > RELEVANCE_THRESHOLD)) = true := by
    rcases hgate with h | h
    · rw [h]
      rfl
    · rw [Bool.or_eq_true]
      exact Or.inr (decide_eq_true h)
  simp only [rag_query]
  split
  next =>
    exact ⟨rfl, fun ans h => by
      injection h with h2
      subst h2
      exact ⟨rfl, "Lesson not found", rfl, by decide⟩⟩
  next =>
    split
    next =>
      exact ⟨rfl, fun ans h => by
        injection h with h2
        subst h2
        exact ⟨rfl, "Book not found", rfl, by decide⟩⟩
    next =>
      split
      next => exact ⟨rfl, fun ans h => Except.noConfusion h⟩
      next =>
        split
        next => exact ⟨rfl, fun ans h => Except.noConfusion h⟩
        next =>
          split
          next =>
            exact ⟨rfl, fun ans h => by
              injection h with h2
              subst h2
              exact ⟨rfl, "Chưa có dữ liệu SGK. Vui lòng ingest sách trước.", rfl, by decide⟩⟩
          next =>
            split
            next =>
              exact ⟨rfl, fun ans h => by
                injection h with h2
                subst h2
                exact ⟨rfl, "Lỗi tìm kiếm.", rfl, by decide⟩⟩
            next =>
              split
              next =>
                exact ⟨rfl, fun ans h => by
                  injection h with h2
                  subst h2
                  exact ⟨rfl, "Lỗi tìm kiếm. Vui lòng thử lại.", rfl, by decide⟩⟩
              next =>
                exact ⟨rfl, fun ans h => by
                  injection h with h2
                  subst h2
                  exact ⟨rfl, "Không tìm thấy nội dung phù hợp trong SGK (độ tương đồng thấp).",
                    rfl, by decide⟩⟩

/-- Witness for C6: with best distance 1.0 > 0.35 the gate fires. -/
theorem c6_witness :
    (rag_query 8 [1] [2] [3] "q" 8 envC6).llmCalled = false ∧
    ∀ ans, (rag_query 8 [1] [2] [3] "q" 8 envC6).outcome = .ok ans →
      ans.sections = [] ∧ ∃ s, ans.note = some s ∧ s ≠ "" :=
  c6_relevance_gate 8 8 [1] [2] [3] "q" envC6 (Or.inr (by decide))

/-- Claim C7 counterexample: the referenced chapter does not exist in the
store, yet `rag_query` still embeds the query and performs the vector search
(and even reaches the text-generation call) — a missing chapter does NOT
short-circuit, only a missing lesson or book does. -/
theorem c7_counterexample :
    getChapterById envC7.chapters [2] = none ∧
    (rag_query 8 [1] [2] [3] "q" 8 envC7).embedCalled = true ∧
    (rag_query 8 [1] [2] [3] "q" 8 envC7).searchCalled = true ∧
    (rag_query 8 [1] [2] [3] "q" 8 envC7).llmCalled = true := by decide

/-- Claim C7 (amended): a missing lesson or a missing book short-circuits
`rag_query` with an explicit not-found result — empty sections, a non-empty
note, and neither query embedding nor vector search nor text generation is
performed. (A missing chapter does not short-circuit; the chapter lookup's
miss is tolerated and retrieval proceeds without the chapter title.) -/
theorem c7_amended_short_circuit (grade k : Nat) (bid cid lid : Digest)
    (content : String) (env : RagEnv)
    (h : getLessonById env.lessons lid = none ∨ getBookById env.books bid = none) :
    (rag_query grade bid cid lid content k env).embedCalled = false ∧
    (rag_query grade bid cid lid content k env).searchCalled = false ∧
    (rag_query grade bid cid lid content k env).llmCalled = false ∧
    ∃ ans, (rag_query grade bid cid lid content k env).outcome = .ok ans ∧
      ans.sections = [] ∧ ∃ s, ans.note = some s ∧ s ≠ "" := by
  cases hl : getLessonById env.lessons lid with
  | none =>
    simp only [rag_query, hl]
    exact ⟨trivial, trivial, trivial, _, rfl, rfl, "Lesson not found", rfl, by decide⟩
  | some lesson =>
    rcases h with h | h
    · rw [hl] at h
      exact absurd h (by simp)
    · simp only [rag_query, hl, h]
      exact ⟨trivial, trivial, trivial, _, rfl, rfl, "Book not found", rfl, by decide⟩

/-- Witness for C7 (amended) at an empty store. -/
theorem c7_witness :
    (rag_query 1 [1] [2] [3] "q" 8 envC7W).embedCalled = false ∧
    (rag_query 1 [1] [2] [3] "q" 8 envC7W).searchCalled = false ∧
    (rag_query 1 [1] [2] [3] "q" 8 envC7W).llmCalled = false ∧
    ∃ ans, (rag_query 1 [1] [2] [3] "q" 8 envC7W).outcome = .ok ans ∧
      ans.sections = [] ∧ ∃ s, ans.note = some s ∧ s ≠ "" :=
  c7_amended_short_circuit 1 8 [1] [2] [3] "q" envC7W (Or.inl (by decide))

theorem lessonRangesOf_mem (structured : List (String × ChapterInfo))
    (r : Nat × Option Nat × String × String) (hr : r ∈ lessonRangesOf structured) :
    ∃ info, (r.2.2.1, info) ∈ structured ∧ ∃ pg, (r.2.2.2, pg) ∈ info.lesson_pages := by
  simp only [lessonRangesOf, List.mem_flatMap] at hr
  obtain ⟨x, hx, hr⟩ := hr
  obtain ⟨q, hq, rfl⟩ := List.mem_map.mp hr
  refine ⟨x.2, by simpa using hx, q.2.1, ?_⟩
  have hq2 : q.2 ∈ lessonPairs x.2 := snd_mem_of_mem_enum hq
  rw [lessonPairs, mem_stableSortBy] at hq2
  obtain ⟨y, hy, hyq⟩ := List.mem_map.mp hq2
  have h1 : q.2.2 = y.1 := by rw [← hyq]
  have h2 : q.2.1 = y.2 := by rw [← hyq]
  simp only [h1, h2]
  exact hy

theorem foldl_writeRange_prop (P : String × Option String → Prop)
    (rs : List (Nat × Option Nat × String × String)) (m : PageMap)
    (hm : ∀ p v, m p = some v → P v)
    (hr : ∀ r ∈ rs, P (r.2.2.1, some r.2.2.2)) :
    ∀ p v, (rs.foldl
      (fun m r => writeRange m r.1 (r.2.1.getD r.1) (r.2.2.1, some r.2.2.2)) m) p = some v →
      P v := by
  induction rs generalizing m with
  | nil => exact hm
  | cons r rs ih =>
    intro p v h
    refine ih (writeRange m r.1 (r.2.1.getD r.1) (r.2.2.1, some r.2.2.2)) ?_ ?_ p v h
    · intro pq vq hq
      unfold writeRange at hq
      split at hq
      · cases hq
        exact hr r (List.mem_cons_self _ _)
      · exact hm pq vq hq
    · intro rq hrq
      exact hr rq (List.mem_cons_of_mem _ hrq)

theorem lessonPass_lesson_provenance (structured : List (String × ChapterInfo))
    (p : Nat) (ch le : String)
    (h : lessonPass structured p = some (ch, some le)) :
    ∃ info, (ch, info) ∈ structured ∧ ∃ pg, (le, pg) ∈ info.lesson_pages := by
  unfold lessonPass at h
  have H := foldl_writeRange_prop
    (fun v => ∀ t, v.2 = some t →
      ∃ info, (v.1, info) ∈ structured ∧ ∃ pg, (t, pg) ∈ info.lesson_pages)
    (lessonRangesOf structured) (fun _ => none)
    (by intro pq vq hq; cases hq)
    (by
      intro r hr t ht
      obtain ⟨info, hi, pg, hp⟩ := lessonRangesOf_mem structured r hr
      have ht2 : r.2.2.2 = t := by
        have := ht
        simp only at this
        injection this
      subst ht2
      exact ⟨info, hi, pg, hp⟩)
    p (ch, some le) h
  exact H le rfl

theorem chapterPass_preserves (structured : List (String × ChapterInfo))
    (m : PageMap) (p : Nat) (a : String × Option String) (h : m p = some a) :
    chapterPass structured m p = some a := by
  unfold chapterPass
  generalize chapterRanges structured = rs
  induction rs generalizing m with
  | nil => exact h
  | cons r rs ih =>
    refine ih (writeRangeIfAbsent m r.1 (r.2.1.getD r.1) (r.2.2, none)) ?_
    simp [writeRangeIfAbsent, h]

theorem chapterPass_new_no_lesson (structured : List (String × ChapterInfo))
    (m : PageMap) (p : Nat) (a : String × Option String)
    (h : chapterPass structured m p = some a) :
    m p = some a ∨ a.2 = none := by
  unfold chapterPass at h
  revert h
  generalize chapterRanges structured = rs
  induction rs generalizing m with
  | nil => exact fun h => Or.inl h
  | cons r rs ih =>
    intro h
    rcases ih (writeRangeIfAbsent m r.1 (r.2.1.getD r.1) (r.2.2, none)) h with h1 | h1
    · cases hm : m p with
      | some x =>
        simp only [writeRangeIfAbsent, hm] at h1
        exact Or.inl h1
      | none =>
        simp only [writeRangeIfAbsent, hm] at h1
        split at h1
        · injection h1 with h1e
          refine Or.inr ?_
          rw [← h1e]
        · simp at h1
    · exact Or.inr h1

/-- Claim C10: in the page→(chapter, lesson) assignment map built from the TOC
skeleton, every page assigned a lesson is also assigned the chapter that
contains that lesson (the pair is written together, the chapter being the one
whose `lesson_pages` lists that lesson); the chapter-range fallback pass never
overwrites a page already covered by a lesson range; and chapter-only pages
get lesson = null. -/
theorem c10_page_assignment_invariants (structured : List (String × ChapterInfo)) (p : Nat) :
    (∀ ch le, build_page_assignments structured p = some (ch, some le) →
      ∃ info, (ch, info) ∈ structured ∧ ∃ pg, (le, pg) ∈ info.lesson_pages) ∧
    (∀ a, lessonPass structured p = some a → build_page_assignments structured p = some a) ∧
    (∀ a, build_page_assignments structured p = some a → lessonPass structured p = none →
      a.2 = none) := by
  refine ⟨?_, ?_, ?_⟩
  · intro ch le h
    rcases chapterPass_new_no_lesson structured _ p (ch, some le) h with h1 | h1
    · exact lessonPass_lesson_provenance structured p ch le h1
    · cases h1
  · intro a h
    exact chapterPass_preserves structured _ p a h
  · intro a h hnone
    rcases chapterPass_new_no_lesson structured _ p a h with h1 | h1
    · rw [hnone] at h1
      cases h1
    · exact h1

/-- Witness for C10 at a concrete one-chapter skeleton: page 5 is assigned the
lesson together with its containing chapter, and the lesson-pass entry
survives the chapter fallback pass. -/
theorem c10_witness :
    (∃ info, ("Chương I. A", info) ∈ structC10 ∧
      ∃ pg, ("Bài 1. X", pg) ∈ info.lesson_pages) ∧
    build_page_assignments structC10 5 = some ("Chương I. A", some "Bài 1. X") :=
  ⟨(c10_page_assignment_invariants structC10 5).1 "Chương I. A" "Bài 1. X" (by decide),
   (c10_page_assignment_invariants structC10 5).2.1 ("Chương I. A", some "Bài 1. X")
     (by decide)⟩
